import Mathlib

/-!
Shallow embedding of the `stactools-packages/ga-dlcd` package
(`src/stactools/ga_dlcd/{stac.py, cog.py, constants.py}`).

The filename-driven metadata derivation of `create_item` (stac.py) is
embedded as executable Lean functions:
  * the regular expression
    `DLCD_v(.+)_MODIS_EVI_(\d+)_(\d\d\d\d)(\d\d)(\d\d)-(\d\d\d\d)(\d\d)(\d\d)`
    applied with `re.search` semantics (leftmost start position, greedy
    groups with backtracking) is `reSearch`; `\d` is modelled as the ASCII
    digits and `.` as any character other than a newline, as in Python's
    default (non-DOTALL) mode on these filenames;
  * Python `datetime(y, m, d, tzinfo=timezone.utc)` is modelled as a
    validity check (`datetime` raises `ValueError` on an out-of-range
    field) plus an instant measured in seconds, where day `n` of the
    proleptic Gregorian calendar (Python `date.toordinal`) starts at
    second `n * 86400`; `timedelta` arithmetic is addition of seconds;
  * the year of an instant follows CPython's `_ord2ymd` year computation.

`create_cog` (cog.py) is embedded over a small environment recording
whether the external `gdal_translate` call and the colormap write
succeed; everything the function does besides reacting to those two
outcomes is logging.

The constant tables of constants.py are transcribed verbatim as
association lists (Python dict literals preserve insertion order).
-/

/-! ## Character and list helpers -/

/-- Decimal value of a list of ASCII digits, as Python `int` on the
captured group string. -/
def decDigits (l : List Char) : ℕ :=
  l.foldl (fun acc c => acc * 10 + (c.toNat - 48)) 0

/-- All splits of `l` into `(front, back)` with the longest `front`
first: the order in which a greedy regex group tries its candidates. -/
def splitsDesc (l : List Char) : List (List Char × List Char) :=
  ((List.range (l.length + 1)).reverse).map (fun n => (l.take n, l.drop n))

/-- `os.path.basename` for POSIX paths: everything after the last `/`. -/
def basename (l : List Char) : List Char :=
  (l.reverse.takeWhile (· ≠ '/')).reverse

/-- Python `str.replace(".tif", "")`: remove every non-overlapping
occurrence of `.tif`, scanning left to right. -/
def replaceTif : List Char → List Char
  | '.' :: 't' :: 'i' :: 'f' :: rest => replaceTif rest
  | c :: rest => c :: replaceTif rest
  | [] => []

/-- Python `v.replace('-', '.')`. -/
def dashToDot (l : List Char) : List Char :=
  l.map (fun c => if c = '-' then '.' else c)

/-- Python's `needle in hay` substring test: does `needle` occur as a
contiguous run inside `hay`? -/
def containsSub (needle : List Char) : List Char → Bool
  | [] => needle.isPrefixOf []
  | c :: t => needle.isPrefixOf (c :: t) || containsSub needle t

/-! ## The filename regular expression -/

/-- The eight captured groups of the filename pattern (the code discards
group 2, the run identifier; the six date groups are kept as the numbers
`int` turns them into). -/
structure FnGroups where
  version : List Char
  runId : List Char
  sy : ℕ
  sm : ℕ
  sd : ℕ
  ey : ℕ
  em : ℕ
  ed : ℕ
deriving DecidableEq, Repr

/-- Consume exactly `n` ASCII digits from the front of `l`
(a `(\d...\d)` group of fixed width `n`). -/
def takeFixedDigits (n : ℕ) (l : List Char) : Option (ℕ × List Char) :=
  let pre := l.take n
  if pre.length = n ∧ pre.all Char.isDigit then some (decDigits pre, l.drop n)
  else none

/-- Match `_(\d\d\d\d)(\d\d)(\d\d)-(\d\d\d\d)(\d\d)(\d\d)` at the front
of `l`; anything may follow (the pattern is unanchored on.the right). -/
def matchDates (l : List Char) : Option (ℕ × ℕ × ℕ × ℕ × ℕ × ℕ) :=
  match l with
  | '_' :: r => do
    let (sy, r) ← takeFixedDigits 4 r
    let (sm, r) ← takeFixedDigits 2 r
    let (sd, r) ← takeFixedDigits 2 r
    match r with
    | '-' :: r => do
      let (ey, r) ← takeFixedDigits 4 r
      let (em, r) ← takeFixedDigits 2 r
      let (ed, _) ← takeFixedDigits 2 r
      pure (sy, sm, sd, ey, em, ed)
    | _ => none
  | _ => none

/-- Match `(\d+)` (greedy, with backtracking: every nonempty all-digit
front of `l` is tried, longest first) followed by the date tail. -/
def matchRunAndDates (l : List Char) :
    Option (List Char × (ℕ × ℕ × ℕ × ℕ × ℕ × ℕ)) :=
  (splitsDesc l).findSome? (fun p =>
    if p.1 ≠ [] ∧ p.1.all Char.isDigit then
      (matchDates p.2).map (fun t => (p.1, t))
    else none)

/-- Match `(.+)_MODIS_EVI_` then the rest of the pattern, starting just
after the literal `DLCD_v`.  The group `(.+)` is greedy: the longest
nonempty newline-free front that lets the rest of the pattern match
wins. -/
def matchVersionTail (l : List Char) : Option FnGroups :=
  (splitsDesc l).findSome? (fun p =>
    if p.1 ≠ [] ∧ p.1.all (· ≠ '\n') then
      if "_MODIS_EVI_".data.isPrefixOf p.2 then
        (matchRunAndDates (p.2.drop 11)).map (fun r =>
          ⟨p.1, r.1, r.2.1, r.2.2.1, r.2.2.2.1, r.2.2.2.2.1,
            r.2.2.2.2.2.1, r.2.2.2.2.2.2⟩)
      else none
    else none)

/-- Try the whole pattern with its start anchored at the front of `l`. -/
def matchHere (l : List Char) : Option FnGroups :=
  if "DLCD_v".data.isPrefixOf l then matchVersionTail (l.drop 6) else none

/-- `re.search` of the filename pattern: try every start position, left
to right. -/
def reSearch : List Char → Option FnGroups
  | [] => matchHere []
  | c :: t =>
    match matchHere (c :: t) with
    | some g => some g
    | none => reSearch t

/-! ## The Python date/datetime model -/

/-- Proleptic-Gregorian leap year, as `datetime._is_leap`. -/
def isLeap (y : ℕ) : Bool :=
  y % 4 = 0 && (y % 100 ≠ 0 || y % 400 = 0)

/-- Days in a month, as `datetime._days_in_month`. -/
def daysInMonth (y m : ℕ) : ℕ :=
  if m = 2 then (if isLeap y then 29 else 28)
  else if m = 4 ∨ m = 6 ∨ m = 9 ∨ m = 11 then 30
  else 31

/-- Days in the years before year `y`, as `datetime._days_before_year`. -/
def daysBeforeYear (y : ℕ) : ℕ :=
  (y - 1) * 365 + (y - 1) / 4 - (y - 1) / 100 + (y - 1) / 400

/-- Days in year `y` before month `m`, as `datetime._days_before_month`. -/
def daysBeforeMonth (y m : ℕ) : ℕ :=
  (match m with
    | 1 => 0 | 2 => 31 | 3 => 59 | 4 => 90 | 5 => 120 | 6 => 151
    | 7 => 181 | 8 => 212 | 9 => 243 | 10 => 273 | 11 => 304 | _ => 334)
  + (if 2 < m ∧ isLeap y then 1 else 0)

/-- Python `date(y, m, d).toordinal()`: day number in the proleptic
Gregorian calendar, with 0001-01-01 as day 1. -/
def toOrdinal (y m d : ℕ) : ℕ :=
  daysBeforeYear y + daysBeforeMonth y m + d

/-- The year a given ordinal day falls in, following the year part of
CPython's `datetime._ord2ymd`. -/
def yearFromOrdinal (n0 : ℕ) : ℕ :=
  let n := n0 - 1
  let n400 := n / 146097
  let r := n % 146097
  let n100 := r / 36524
  let r1 := r % 36524
  let n4 := r1 / 1461
  let r2 := r1 % 1461
  let n1 := r2 / 365
  let year := n400 * 400 + 1 + n100 * 100 + n4 * 4 + n1
  if n1 = 4 ∨ n100 = 4 then year - 1 else year

/-- A Python `datetime` instant: seconds since the midnight opening
ordinal day 0, plus whether it carries `timezone.utc`. -/
structure PyDateTime where
  seconds : ℤ
  tzUtc : Bool
deriving DecidableEq, Repr

/-- `timedelta` addition (a `timedelta` is an exact number of seconds;
subtraction adds the negation). -/
def PyDateTime.addSeconds (t : PyDateTime) (k : ℤ) : PyDateTime :=
  ⟨t.seconds + k, t.tzUtc⟩

/-- `datetime(y, m, d, tzinfo=timezone.utc)`: `None` models the
`ValueError` the constructor raises on an out-of-range field
(`MINYEAR = 1`, `MAXYEAR = 9999`). -/
def mkUtcDatetime (y m d : ℕ) : Option PyDateTime :=
  if 1 ≤ y ∧ y ≤ 9999 ∧ 1 ≤ m ∧ m ≤ 12 ∧ 1 ≤ d ∧ d ≤ daysInMonth y m then
    some ⟨(toOrdinal y m d : ℤ) * 86400, true⟩
  else none

/-- The `.year` attribute of an instant. -/
def PyDateTime.year (t : PyDateTime) : ℕ :=
  yearFromOrdinal ((t.seconds / 86400).toNat)

/-- The instant at `h:mi:s` UTC on the calendar date `y-m-d`: the
reference point the specification's `YYYY-MM-DDThh:mm:ssZ` instants
denote in this model. -/
def utcInstant (y m d h mi s : ℕ) : PyDateTime :=
  ⟨(toOrdinal y m d : ℤ) * 86400 + (h * 3600 + mi * 60 + s), true⟩

/-! ## Constants (constants.py) -/

/-- `GADLCD_VERSION = "2.1"`. -/
def GADLCD_VERSION : String := "2.1"

/-- `GADLCD_BOUNDING_BOX = [110.0, -45.004798, 155.009189, -10.0]`
(`[west, south, east, north]`); the literals are carried exactly, no
arithmetic is ever performed on them. -/
def GADLCD_BOUNDING_BOX : List ℚ :=
  [110, -45004798 / 1000000, 155009189 / 1000000, -10]

/-- `CLASSIFICATION_VALUES`, in the dict literal's insertion order. -/
def CLASSIFICATION_VALUES : List (ℕ × String) :=
  [(0, "No Data"),
   (2, "Mines and Quarries"),
   (35, "Urban Areas"),
   (3, "Lakes and dams"),
   (4, "Salt lakes"),
   (5, "Irrigated cropping"),
   (8, "Rain fed cropping"),
   (6, "Irrigated pasture"),
   (9, "Rain fed pasture"),
   (7, "Irrigated sugar"),
   (10, "Rain fed sugar"),
   (11, "Wetlands"),
   (15, "Alpine meadows"),
   (16, "Open Hummock Grassland"),
   (14, "Closed Tussock Grassland"),
   (18, "Open Tussock Grassland"),
   (19, "Scattered shrubs and grasses"),
   (24, "Dense Shrubland"),
   (25, "Open Shrubland"),
   (31, "Closed Forest"),
   (32, "Open Forest"),
   (34, "Woodland"),
   (33, "Open Woodland")]

/-- `COLOUR_MAP`, in the dict literal's insertion order. -/
def COLOUR_MAP : List (ℕ × (ℕ × ℕ × ℕ × ℕ)) :=
  [(0, (0, 0, 0, 0)),
   (1, (130, 130, 130, 255)),
   (35, (200, 200, 200, 255)),
   (3, (0, 70, 173, 255)),
   (4, (150, 225, 255, 255)),
   (5, (90, 36, 90, 255)),
   (8, (198, 141, 153, 255)),
   (6, (166, 38, 170, 255)),
   (9, (226, 194, 199, 255)),
   (7, (183, 18, 52, 255)),
   (10, (219, 77, 105, 255)),
   (11, (0, 178, 160, 255)),
   (15, (255, 255, 255, 255)),
   (16, (255, 255, 115, 255)),
   (14, (255, 121, 0, 255)),
   (18, (255, 169, 82, 255)),
   (19, (255, 255, 190, 255)),
   (24, (175, 136, 80, 255)),
   (25, (193, 168, 117, 255)),
   (31, (0, 133, 0, 255)),
   (32, (20, 194, 0, 255)),
   (34, (186, 232, 96, 255)),
   (33, (214, 255, 138, 255))]

/-! ## create_item (stac.py) -/

/-- What `create_item` reads from the raster it opens: `src.bounds`,
`src.transform`, `src.height`, `src.width`.  The values are per-file and
opaque to the metadata logic, so they are parameters of the embedding. -/
structure RasterHeader where
  bounds : List ℚ
  transform : List ℚ
  height : ℕ
  width : ℕ
deriving DecidableEq, Repr

/-- The three `ValueError` sites of `create_item`: the filename pattern
not matching (Parse Error), the version mismatch (Validation Error), and
an out-of-range date field (`datetime` constructor).  The parse and
version errors carry the message string the code builds.  Note that the
parse-error message at stac.py line 78 is written without the `f`
prefix, so it is the constant literal
`"Could not extract necessary values from {cog_href}"` and never
contains the actual input.  The message of the `datetime` constructor's
`ValueError` is built inside CPython and is not modelled. -/
inductive StacError where
  | parseError (msg : String)
  | versionError (msg : String)
  | dateError
deriving DecidableEq, Repr

/-- The pieces of the `pystac.Item` built by `create_item` that this
development reasons about: identifier, the three instants, the title,
geometry/bbox, the label-extension class list, and the
projection-extension fields read from the raster header. -/
structure ItemMeta where
  itemId : String
  dtime : PyDateTime
  startDt : PyDateTime
  endDt : PyDateTime
  title : String
  bbox : List ℚ
  geometry : List (ℚ × ℚ)
  labelClasses : List String
  projBbox : List ℚ
  projTransform : List ℚ
  projShape : List ℕ
deriving DecidableEq, Repr

/-- `shapely.geometry.box(minx, miny, maxx, maxy, ccw=True)`: the closed
exterior ring `[(maxx,miny), (maxx,maxy), (minx,maxy), (minx,miny),
(maxx,miny)]`, which the code turns into the Item's polygon geometry. -/
def polygonOfBbox (b : List ℚ) : List (ℚ × ℚ) :=
  match b with
  | [w, s, e, n] => [(e, s), (e, n), (w, n), (w, s), (e, s)]
  | _ => []

/-- `os.path.basename(cog_href).replace(".tif", "")`. -/
def itemIdOf (cogHref : String) : List Char :=
  replaceTif (basename cogHref.data)

/-- The filename-driven part of `create_item` (stac.py lines 72-196):
derive the identifier, match the filename pattern, validate the version,
build the instants and the title, and assemble the Item fields.  The
fields read from the raster file arrive through `hdr`. -/
def createItem (cogHref : String) (hdr : RasterHeader) :
    Except StacError ItemMeta :=
  match reSearch (itemIdOf cogHref) with
  | none =>
    .error (.parseError "Could not extract necessary values from {cog_href}")
  | some g =>
    if dashToDot g.version = GADLCD_VERSION.data then
      match mkUtcDatetime g.sy g.sm g.sd with
      | none => .error .dateError
      | some sdt =>
        match mkUtcDatetime g.ey g.em g.ed with
        | none => .error .dateError
        | some edt0 =>
          .ok { itemId := ⟨itemIdOf cogHref⟩
                dtime := sdt
                startDt := sdt
                endDt := (edt0.addSeconds 86400).addSeconds (-1)
                title := "GA DLCD " ++ toString sdt.year ++ " - "
                  ++ toString ((edt0.addSeconds 86400).addSeconds (-1)).year
                bbox := GADLCD_BOUNDING_BOX
                geometry := polygonOfBbox GADLCD_BOUNDING_BOX
                labelClasses := CLASSIFICATION_VALUES.map Prod.snd
                projBbox := hdr.bounds
                projTransform := hdr.transform
                projShape := [hdr.height, hdr.width] }
    else
      .error (.versionError ("Provided version "
        ++ String.mk (dashToDot g.version) ++ " is not the expected "
        ++ GADLCD_VERSION))

/-! ## create_cog (cog.py) -/

/-- The outcomes of the two fallible steps `create_cog` performs when it
is not a dry run: the `gdal_translate` subprocess (`check_output`) and
the colormap write through rasterio. -/
structure CogEnv where
  convOk : Bool
  colormapOk : Bool
deriving DecidableEq, Repr

/-- The exceptions `create_cog` can let escape: `CalledProcessError`
from the converter, or the error raised while writing the colormap. -/
inductive CogError where
  | conversionError
  | colormapError
deriving DecidableEq, Repr

/-- `create_cog` (cog.py lines 11-78).  A dry run skips both steps.
Otherwise a converter failure is re-raised inside the `try`, and any
exception of the block — converter failure or colormap-write failure — is
caught by `except Exception`, logged, and re-raised only when
`raise_on_fail`; every completion that does not raise falls through to
`return output_path`. -/
def createCog (env : CogEnv) (inputPath outputPath : String)
    (raiseOnFail : Bool := true) (dryRun : Bool := false) :
    Except CogError String :=
  if dryRun then .ok outputPath
  else if env.convOk = false then
    if raiseOnFail then .error .conversionError else .ok outputPath
  else if env.colormapOk = false then
    if raiseOnFail then .error .colormapError else .ok outputPath
  else .ok outputPath

/-- A concrete raster header, standing in for an arbitrary opened file
in closed statements. -/
def sampleHeader : RasterHeader :=
  ⟨[110, -45, 155, -10], [1, 0, 110, 0, -1, -10], 14902, 19161⟩

/-! ## Helper lemmas -/

/-- A successfully constructed UTC datetime is midnight of its ordinal
day, carrying `timezone.utc`. -/
theorem mkUtcDatetime_some {y m d : ℕ} {t : PyDateTime}
    (h : mkUtcDatetime y m d = some t) :
    t = ⟨(toOrdinal y m d : ℤ) * 86400, true⟩ := by
  unfold mkUtcDatetime at h
  split at h
  · injection h with h'
    exact h'.symm
  · exact absurd h (by simp)

/-- When the filename pattern matched with groups `g` and `create_item`
succeeded, the Item's start instant is midnight of the parsed start date
and its end instant is `86399` seconds past midnight of the parsed end
date, both UTC-aware. -/
theorem createItem_ok_dates {f : String} {hdr : RasterHeader}
    {g : FnGroups} {item : ItemMeta}
    (hs : reSearch (itemIdOf f) = some g)
    (hok : createItem f hdr = Except.ok item) :
    item.startDt = ⟨(toOrdinal g.sy g.sm g.sd : ℤ) * 86400, true⟩ ∧
    item.endDt = ⟨(toOrdinal g.ey g.em g.ed : ℤ) * 86400 + 86399, true⟩ := by
  unfold createItem at hok
  rw [hs] at hok
  split at hok
  · exact absurd hok (by simp)
  · rename_i g' heq
    injection heq with hg
    subst hg
    split at hok
    · split at hok
      · exact absurd hok (by simp)
      · split at hok
        · exact absurd hok (by simp)
        · rename_i sdt hsdt x2 edt0 hedt
          injection hok with h
          subst h
          rw [mkUtcDatetime_some hsdt, mkUtcDatetime_some hedt]
          constructor
          · rfl
          · simp only [PyDateTime.addSeconds, PyDateTime.mk.injEq]
            exact ⟨by omega, trivial⟩
    · exact absurd hok (by simp)

/-- When `create_item` succeeded, the Item's bbox, geometry and label
classes are the fixed constants, whatever the raster header held. -/
theorem createItem_ok_fixed {f : String} {hdr : RasterHeader}
    {item : ItemMeta} (hok : createItem f hdr = Except.ok item) :
    item.bbox = GADLCD_BOUNDING_BOX ∧
    item.geometry = polygonOfBbox GADLCD_BOUNDING_BOX ∧
    item.labelClasses = CLASSIFICATION_VALUES.map Prod.snd := by
  unfold createItem at hok
  split at hok
  · exact absurd hok (by simp)
  · split at hok
    · split at hok
      · exact absurd hok (by simp)
      · split at hok
        · exact absurd hok (by simp)
        · injection hok with h
          subst h
          exact ⟨rfl, rfl, rfl⟩
    · exact absurd hok (by simp)

/-! ## Claims -/

/-- **C1, counterexample.**  On the specification's scenario filename
`DLCD_v2-1_MODIS_EVI_16day_20020101-20021231.tif`, `create_item` does
not return an Item at all: the run-identifier group `(\d+)_` cannot
match `16day_`, so the pattern search fails and the function raises the
Parse-Error `ValueError`. -/
theorem gaDlcd_C1_counterexample :
    createItem "DLCD_v2-1_MODIS_EVI_16day_20020101-20021231.tif"
      sampleHeader = Except.error (StacError.parseError
        "Could not extract necessary values from {cog_href}") := by
  rfl

/-- **C1, amended.**  For the input filename
`DLCD_v2-1_MODIS_EVI_16_20020101-20021231.tif` (an all-digit run
identifier, as the pattern requires), `create_item` returns an Item with
identifier `DLCD_v2-1_MODIS_EVI_16_20020101-20021231`, start instant
2002-01-01T00:00:00Z, end instant 2002-12-31T23:59:59Z, and title
`"GA DLCD 2002 - 2002"`, whatever the opened raster's header holds. -/
theorem gaDlcd_C1_amended (hdr : RasterHeader) :
    ∃ item,
      createItem "DLCD_v2-1_MODIS_EVI_16_20020101-20021231.tif" hdr
        = Except.ok item ∧
      item.itemId = "DLCD_v2-1_MODIS_EVI_16_20020101-20021231" ∧
      item.startDt = utcInstant 2002 1 1 0 0 0 ∧
      item.endDt = utcInstant 2002 12 31 23 59 59 ∧
      item.title = "GA DLCD 2002 - 2002" := by
  refine ⟨_, rfl, ?_, ?_, ?_, ?_⟩ <;> rfl

/-- **C2, counterexample.**  The filename
`DLCD_v2-1_MODIS_EVI_16_20030101-20020101.tif` matches the pattern,
passes version validation and has calendar-valid dates, yet the
extracted start instant (2003-01-01) is *later* than the end instant
(2002-01-01 23:59:59): the claimed strict ordering fails. -/
theorem gaDlcd_C2_counterexample :
    (createItem "DLCD_v2-1_MODIS_EVI_16_20030101-20020101.tif"
        sampleHeader).toOption.map
      (fun item => decide (item.startDt.seconds < item.endDt.seconds))
      = some false := by
  decide

/-- **C2, amended.**  For every filename matching the pattern on which
`create_item` succeeds, *provided the parsed start date is on or before
the parsed end date*, the start instant is strictly earlier than the
end instant and both instants carry `timezone.utc`. -/
theorem gaDlcd_C2_amended (f : String) (hdr : RasterHeader)
    (g : FnGroups) (item : ItemMeta)
    (hs : reSearch (itemIdOf f) = some g)
    (hok : createItem f hdr = Except.ok item)
    (hle : toOrdinal g.sy g.sm g.sd ≤ toOrdinal g.ey g.em g.ed) :
    item.startDt.seconds < item.endDt.seconds ∧
    item.startDt.tzUtc = true ∧ item.endDt.tzUtc = true := by
  obtain ⟨h1, h2⟩ := createItem_ok_dates hs hok
  rw [h1, h2]
  refine ⟨?_, rfl, rfl⟩
  dsimp only
  omega

/-- **C2, witness.**  The amended statement at the valid 2002 filename. -/
theorem gaDlcd_C2_witness :
    reSearch (itemIdOf "DLCD_v2-1_MODIS_EVI_16_20020101-20021231.tif") =
      some ⟨"2-1".data, "16".data, 2002, 1, 1, 2002, 12, 31⟩ ∧
    toOrdinal 2002 1 1 ≤ toOrdinal 2002 12 31 ∧
    ∃ item,
      createItem "DLCD_v2-1_MODIS_EVI_16_20020101-20021231.tif"
        sampleHeader = Except.ok item ∧
      item.startDt.seconds < item.endDt.seconds ∧
      item.startDt.tzUtc = true ∧ item.endDt.tzUtc = true := by
  refine ⟨by decide, by decide, ?_⟩
  obtain ⟨item, hok⟩ :
      ∃ it, createItem "DLCD_v2-1_MODIS_EVI_16_20020101-20021231.tif"
        sampleHeader = Except.ok it := ⟨_, rfl⟩
  exact ⟨item, hok,
    gaDlcd_C2_amended "DLCD_v2-1_MODIS_EVI_16_20020101-20021231.tif"
      sampleHeader ⟨"2-1".data, "16".data, 2002, 1, 1, 2002, 12, 31⟩ item
      (by decide) hok (by decide)⟩

/-- **C3, counterexample.**  The legend on a successfully built Item
lists 23 class names, not 22: `CLASSIFICATION_VALUES` holds the 22
land-cover classes *plus* the `No Data` entry. -/
theorem gaDlcd_C3_counterexample :
    (createItem "DLCD_v2-1_MODIS_EVI_16_20020101-20021231.tif"
        sampleHeader).toOption.map
      (fun item => item.labelClasses.length) = some 23 ∧ (23 : ℕ) ≠ 22 := by
  constructor
  · decide
  · decide

/-- **C3, amended.**  The classification legend attached to every Item
`create_item` builds is exactly the class-name column of the fixed
Classification Table, which has 23 entries (the 22 land-cover classes
plus `No Data`). -/
theorem gaDlcd_C3_amended (f : String) (hdr : RasterHeader)
    (item : ItemMeta) (hok : createItem f hdr = Except.ok item) :
    item.labelClasses = CLASSIFICATION_VALUES.map Prod.snd ∧
    item.labelClasses.length = 23 := by
  have h := (createItem_ok_fixed hok).2.2
  exact ⟨h, by rw [h]; rfl⟩

/-- **C3, witness.**  The amended statement at the valid 2002 filename. -/
theorem gaDlcd_C3_witness :
    ∃ item,
      createItem "DLCD_v2-1_MODIS_EVI_16_20020101-20021231.tif"
        sampleHeader = Except.ok item ∧
      item.labelClasses = CLASSIFICATION_VALUES.map Prod.snd ∧
      item.labelClasses.length = 23 := by
  obtain ⟨item, hok⟩ :
      ∃ it, createItem "DLCD_v2-1_MODIS_EVI_16_20020101-20021231.tif"
        sampleHeader = Except.ok it := ⟨_, rfl⟩
  exact ⟨item, hok,
    gaDlcd_C3_amended "DLCD_v2-1_MODIS_EVI_16_20020101-20021231.tif"
      sampleHeader item hok⟩

/-- **C4.**  The claimed invariant fails in the code: `COLOUR_MAP`
contains the key `1`, which is not a key of `CLASSIFICATION_VALUES`
(the classification table has `2`, Mines and Quarries, in that position
of the otherwise identical key sequence — the colour map's `1` is a
slip). -/
theorem gaDlcd_C4_colour_key_one :
    (COLOUR_MAP.map Prod.fst).contains 1 = true ∧
    (CLASSIFICATION_VALUES.map Prod.fst).contains 1 = false ∧
    (CLASSIFICATION_VALUES.map Prod.fst).contains 2 = true ∧
    (COLOUR_MAP.map Prod.fst).contains 2 = false := by
  decide

/-- **C5.**  Whenever the pattern matched (with groups `g`) and
`create_item` succeeded, the start instant is 00:00:00 UTC on the parsed
start date and the end instant is 23:59:59 UTC on the parsed end date,
i.e. one second before the next day's midnight. -/
theorem gaDlcd_C5 (f : String) (hdr : RasterHeader) (g : FnGroups)
    (item : ItemMeta)
    (hs : reSearch (itemIdOf f) = some g)
    (hok : createItem f hdr = Except.ok item) :
    item.startDt = utcInstant g.sy g.sm g.sd 0 0 0 ∧
    item.endDt = utcInstant g.ey g.em g.ed 23 59 59 ∧
    item.endDt.seconds = ((toOrdinal g.ey g.em g.ed : ℤ) + 1) * 86400 - 1 := by
  obtain ⟨h1, h2⟩ := createItem_ok_dates hs hok
  refine ⟨?_, ?_, ?_⟩
  · rw [h1]
    simp only [utcInstant, PyDateTime.mk.injEq]
    exact ⟨by omega, trivial⟩
  · rw [h2]
    simp only [utcInstant, PyDateTime.mk.injEq]
    exact ⟨by omega, trivial⟩
  · rw [h2]
    dsimp only
    omega

/-- **C5, witness.**  The statement at the valid 2002 filename. -/
theorem gaDlcd_C5_witness :
    reSearch (itemIdOf "DLCD_v2-1_MODIS_EVI_16_20020101-20021231.tif") =
      some ⟨"2-1".data, "16".data, 2002, 1, 1, 2002, 12, 31⟩ ∧
    ∃ item,
      createItem "DLCD_v2-1_MODIS_EVI_16_20020101-20021231.tif"
        sampleHeader = Except.ok item ∧
      item.startDt = utcInstant 2002 1 1 0 0 0 ∧
      item.endDt = utcInstant 2002 12 31 23 59 59 ∧
      item.endDt.seconds = ((toOrdinal 2002 12 31 : ℤ) + 1) * 86400 - 1 := by
  refine ⟨by decide, ?_⟩
  obtain ⟨item, hok⟩ :
      ∃ it, createItem "DLCD_v2-1_MODIS_EVI_16_20020101-20021231.tif"
        sampleHeader = Except.ok it := ⟨_, rfl⟩
  exact ⟨item, hok,
    gaDlcd_C5 "DLCD_v2-1_MODIS_EVI_16_20020101-20021231.tif"
      sampleHeader ⟨"2-1".data, "16".data, 2002, 1, 1, 2002, 12, 31⟩ item
      (by decide) hok⟩

/-- **C6.**  For every filename on which the pattern matches with a
version token whose hyphens-to-periods normalisation differs from the
expected `GADLCD_VERSION` (`"2.1"`), `create_item` fails with the
Validation Error and returns no Item, whatever the raster header. -/
theorem gaDlcd_C6 (f : String) (hdr : RasterHeader) (g : FnGroups)
    (hs : reSearch (itemIdOf f) = some g)
    (hv : ¬ dashToDot g.version = GADLCD_VERSION.data) :
    createItem f hdr = Except.error (StacError.versionError
      ("Provided version " ++ String.mk (dashToDot g.version)
        ++ " is not the expected " ++ GADLCD_VERSION)) := by
  unfold createItem
  split
  · rename_i heq
    exact absurd (hs.symm.trans heq) (by simp)
  · rename_i g' heq
    have hg : g' = g := by
      have := hs.symm.trans heq
      injection this with h
      exact h.symm
    subst hg
    rw [if_neg hv]

/-- **C6, witness.**  The statement at a filename carrying version
token `2-2`. -/
theorem gaDlcd_C6_witness :
    reSearch (itemIdOf "DLCD_v2-2_MODIS_EVI_16_20020101-20021231.tif") =
      some ⟨"2-2".data, "16".data, 2002, 1, 1, 2002, 12, 31⟩ ∧
    ¬ dashToDot "2-2".data = GADLCD_VERSION.data ∧
    createItem "DLCD_v2-2_MODIS_EVI_16_20020101-20021231.tif"
      sampleHeader = Except.error (StacError.versionError
        "Provided version 2.2 is not the expected 2.1") := by
  refine ⟨by decide, by decide, ?_⟩
  exact gaDlcd_C6 "DLCD_v2-2_MODIS_EVI_16_20020101-20021231.tif"
    sampleHeader ⟨"2-2".data, "16".data, 2002, 1, 1, 2002, 12, 31⟩
    (by decide) (by decide)

/-- **C7, code bug.**  On a filename that does not match the pattern
at all (here one missing the date-range segment entirely),
`create_item` raises the Parse-Error `ValueError` and produces no
record — but, contrary to the claim, the error does not name the
offending input: the `raise` at stac.py line 78 is missing the `f`
prefix, so its message is the constant string
`"Could not extract necessary values from {cog_href}"`, which contains
neither the input href nor the derived identifier. -/
theorem gaDlcd_C7_message_bug :
    createItem "DLCD_v2-1_MODIS_EVI_16.tif" sampleHeader
      = Except.error (StacError.parseError
          "Could not extract necessary values from {cog_href}") ∧
    containsSub "DLCD_v2-1_MODIS_EVI_16.tif".data
      "Could not extract necessary values from {cog_href}".data = false ∧
    containsSub "DLCD_v2-1_MODIS_EVI_16".data
      "Could not extract necessary values from {cog_href}".data = false := by
  exact ⟨rfl, rfl, rfl⟩

/-- **C8.**  Every Item `create_item` successfully returns carries the
fixed dataset bounding box `[110.0, -45.004798, 155.009189, -10.0]` as
its bbox and the box polygon built from that same constant as its
geometry, for every raster header (the per-file extent read from the
file feeds only the projection fields). -/
theorem gaDlcd_C8 (f : String) (hdr : RasterHeader) (item : ItemMeta)
    (hok : createItem f hdr = Except.ok item) :
    item.bbox = GADLCD_BOUNDING_BOX ∧
    item.bbox = [(110 : ℚ), -45004798 / 1000000, 155009189 / 1000000, -10] ∧
    item.geometry = polygonOfBbox GADLCD_BOUNDING_BOX := by
  obtain ⟨h1, h2, _⟩ := createItem_ok_fixed hok
  exact ⟨h1, by rw [h1]; rfl, h2⟩

/-- **C8, witness.**  The statement at the valid 2002 filename and a
concrete raster header whose extent differs from the fixed bbox. -/
theorem gaDlcd_C8_witness :
    ∃ item,
      createItem "DLCD_v2-1_MODIS_EVI_16_20020101-20021231.tif"
        sampleHeader = Except.ok item ∧
      item.bbox = GADLCD_BOUNDING_BOX ∧
      item.bbox = [(110 : ℚ), -45004798 / 1000000, 155009189 / 1000000, -10] ∧
      item.geometry = polygonOfBbox GADLCD_BOUNDING_BOX := by
  obtain ⟨item, hok⟩ :
      ∃ it, createItem "DLCD_v2-1_MODIS_EVI_16_20020101-20021231.tif"
        sampleHeader = Except.ok it := ⟨_, rfl⟩
  exact ⟨item, hok,
    gaDlcd_C8 "DLCD_v2-1_MODIS_EVI_16_20020101-20021231.tif"
      sampleHeader item hok⟩

/-- **C9.**  When the external conversion fails, `create_cog` with
`raise_on_fail=False` swallows the error and returns the output path,
while with `raise_on_fail=True` the Conversion Error propagates; and
every completion of `create_cog` that does not raise returns the output
path. -/
theorem gaDlcd_C9 (env : CogEnv) (inp outp : String)
    (hfail : env.convOk = false) :
    createCog env inp outp false false = Except.ok outp ∧
    createCog env inp outp true false
      = Except.error CogError.conversionError ∧
    (∀ (flag dry : Bool) (p : String),
      createCog env inp outp flag dry = Except.ok p → p = outp) := by
  obtain ⟨c, m⟩ := env
  simp only at hfail
  subst hfail
  refine ⟨by cases m <;> rfl, by cases m <;> rfl, ?_⟩
  intro flag dry p h
  cases flag <;> cases dry <;> cases m <;>
    simp [createCog] at h <;> exact h.symm

/-- **C9, witness.**  The statement for a failing conversion. -/
theorem gaDlcd_C9_witness :
    (CogEnv.mk false true).convOk = false ∧
    createCog ⟨false, true⟩ "input.tif" "out.tif" false false
      = Except.ok "out.tif" ∧
    createCog ⟨false, true⟩ "input.tif" "out.tif" true false
      = Except.error CogError.conversionError :=
  ⟨rfl, (gaDlcd_C9 ⟨false, true⟩ "input.tif" "out.tif" rfl).1,
    (gaDlcd_C9 ⟨false, true⟩ "input.tif" "out.tif" rfl).2.1⟩

/-- **C10.**  With `raise_on_fail=False`, `create_cog` suppresses every
exception of the operation — converter failure and colormap-write
failure alike — and returns the output path in all cases, dry run or
not. -/
theorem gaDlcd_C10 (env : CogEnv) (inp outp : String) (dry : Bool) :
    createCog env inp outp false dry = Except.ok outp := by
  obtain ⟨c, m⟩ := env
  cases c <;> cases m <;> cases dry <;> rfl
